import Mathlib

/-!
Shallow embedding of the health-tracker rule engines
(`src/models/data_processor.py`, `src/models/risk_models.py`,
`src/utils/alerts.py`, `src/components/intervention_engine.py`).

Modelling conventions:

* A measurement record is one row of the pandas DataFrame that the data
  manager stores.  Every record produced by the input form
  (`src/components/health_input.py`) carries the same fixed set of
  numeric columns, so a record is a structure with one `Option ℚ` field
  per numeric column; `none` models a missing (NaN) cell.  Python float
  comparisons against NaN are always false, which is reflected by the
  `oGT`/`oGE`/`oLT`/`oLE`/`oEQ` helpers below.  Non-numeric columns
  (gender, free-text notes, family-history booleans) are never read by
  any engine and are omitted.
* Measured values are rationals; the float arithmetic of the source is
  exact on the operations the engines perform (sums, differences,
  comparisons against decimal literals), except where noted in a
  doc comment.
* A history (`Frame`) is the list of records in DataFrame row order.
  `data.iloc[-1]` is `List.getLast?`, `data.empty` is `= []`.
* Dates are modelled as integer day numbers: `timedelta(days=30)` is
  `30`, `(a - b).days` is integer subtraction.
* Python's stable `list.sort` / a stable sort by key is modelled with
  `List.insertionSort`, which is stable for the lax relation used here.
-/

/-- One stored measurement record: one DataFrame row.  `date` is always
present (the data manager adds it on insertion).  The last four fields
are the derived columns written by `calculate_derived_metrics`; they are
absent (`none`) on records as stored.  `total_hdl_quot` and
`ldl_hdl_quot` model the source columns `total_hdl_ratio` and
`ldl_hdl_ratio`. -/
structure Record where
  date : ℤ
  age : Option ℚ := none
  height : Option ℚ := none
  weight : Option ℚ := none
  bmi : Option ℚ := none
  waist_circumference : Option ℚ := none
  systolic_bp : Option ℚ := none
  diastolic_bp : Option ℚ := none
  resting_heart_rate : Option ℚ := none
  glucose_fasting : Option ℚ := none
  hba1c : Option ℚ := none
  total_cholesterol : Option ℚ := none
  hdl_cholesterol : Option ℚ := none
  ldl_cholesterol : Option ℚ := none
  triglycerides : Option ℚ := none
  exercise_minutes_per_week : Option ℚ := none
  sleep_hours : Option ℚ := none
  stress_level : Option ℚ := none
  smoking_status : Option ℚ := none
  alcohol_consumption : Option ℚ := none
  diet_quality : Option ℚ := none
  pulse_pressure : Option ℚ := none
  total_hdl_quot : Option ℚ := none
  ldl_hdl_quot : Option ℚ := none
  cv_risk_score : Option ℚ := none
deriving DecidableEq

/-- A history: the DataFrame of measurement records, in row order. -/
abbrev Frame := List Record

/-- Python `value > t` for a possibly-NaN `value` (NaN compares false). -/
def oGT (o : Option ℚ) (t : ℚ) : Bool :=
  match o with
  | some v => decide (t < v)
  | none => false

/-- Python `value >= t` for a possibly-NaN `value`. -/
def oGE (o : Option ℚ) (t : ℚ) : Bool :=
  match o with
  | some v => decide (t ≤ v)
  | none => false

/-- Python `value < t` for a possibly-NaN `value`. -/
def oLT (o : Option ℚ) (t : ℚ) : Bool :=
  match o with
  | some v => decide (v < t)
  | none => false

/-- Python `value <= t` for a possibly-NaN `value`. -/
def oLE (o : Option ℚ) (t : ℚ) : Bool :=
  match o with
  | some v => decide (v ≤ t)
  | none => false

/-- Python `value == t` for a possibly-NaN `value`. -/
def oEQ (o : Option ℚ) (t : ℚ) : Bool :=
  match o with
  | some v => decide (v = t)
  | none => false

/-- NaN-propagating binary arithmetic on two DataFrame cells. -/
def omap2 (f : ℚ → ℚ → ℚ) (x y : Option ℚ) : Option ℚ :=
  match x, y with
  | some a, some b => some (f a b)
  | _, _ => none

/-- Column lookup by name, as `latest_data[metric]` does on a row.
Names not in the record schema have no cell. -/
def Record.col (r : Record) (m : String) : Option ℚ :=
  match m with
  | "age" => r.age
  | "height" => r.height
  | "weight" => r.weight
  | "bmi" => r.bmi
  | "waist_circumference" => r.waist_circumference
  | "systolic_bp" => r.systolic_bp
  | "diastolic_bp" => r.diastolic_bp
  | "resting_heart_rate" => r.resting_heart_rate
  | "glucose_fasting" => r.glucose_fasting
  | "hba1c" => r.hba1c
  | "total_cholesterol" => r.total_cholesterol
  | "hdl_cholesterol" => r.hdl_cholesterol
  | "ldl_cholesterol" => r.ldl_cholesterol
  | "triglycerides" => r.triglycerides
  | "exercise_minutes_per_week" => r.exercise_minutes_per_week
  | "sleep_hours" => r.sleep_hours
  | "stress_level" => r.stress_level
  | "smoking_status" => r.smoking_status
  | "alcohol_consumption" => r.alcohol_consumption
  | "diet_quality" => r.diet_quality
  | "pulse_pressure" => r.pulse_pressure
  | "total_hdl_ratio" => r.total_hdl_quot
  | "ldl_hdl_ratio" => r.ldl_hdl_quot
  | "cv_risk_score" => r.cv_risk_score
  | _ => none

/-- The column names of a stored record (the pandas index of
`latest_data`, so also the result of `metric in latest_data` /
`metric in health_data.columns`).  These are exactly the keys the input
form writes (`src/components/health_input.py`), minus the non-numeric
ones, which no threshold table ever names.  Note that the pseudo-keys
of the alert threshold tables (`hdl_cholesterol_low`,
`exercise_minutes_per_week_low`, `sleep_hours_low`, `sleep_hours_high`,
`stress_level_high`) are not columns of any record. -/
def recordColumns : List String :=
  ["date", "age", "height", "weight", "bmi", "waist_circumference",
   "systolic_bp", "diastolic_bp", "resting_heart_rate", "glucose_fasting",
   "hba1c", "total_cholesterol", "hdl_cholesterol", "ldl_cholesterol",
   "triglycerides", "exercise_minutes_per_week", "sleep_hours",
   "stress_level", "smoking_status", "alcohol_consumption", "diet_quality"]

/-- Python `metric in latest_data` / `metric in health_data.columns`. -/
def hasCol (m : String) : Bool :=
  recordColumns.contains m

/-! ### Metrics Engine: `DataProcessor.calculate_health_score`
(src/models/data_processor.py lines 138-201).  Each `...Adj` function
transcribes one penalty/bonus block; `latest_data.get(col, default)`
always finds the column on stored records, so the default argument of
`.get` is dead and `none` is the NaN cell, on which every comparison of
the block is false and the adjustment is 0. -/

/-- BMI penalty block. -/
def bmiAdj (bmi : Option ℚ) : ℤ :=
  if oGT bmi 30 then -20
  else if oGT bmi 25 then -10
  else if oLT bmi 18.5 then -15
  else 0

/-- Blood-pressure penalty block. -/
def bpAdj (systolic diastolic : Option ℚ) : ℤ :=
  if oGT systolic 140 || oGT diastolic 90 then -25
  else if oGT systolic 130 || oGT diastolic 80 then -15
  else 0

/-- Glucose penalty block. -/
def glucoseAdj (glucose : Option ℚ) : ℤ :=
  if oGT glucose 126 then -30
  else if oGT glucose 100 then -15
  else 0

/-- Total-cholesterol penalty block. -/
def cholAdj (total_chol : Option ℚ) : ℤ :=
  if oGT total_chol 240 then -15 else 0

/-- HDL penalty block. -/
def hdlAdj (hdl_chol : Option ℚ) : ℤ :=
  if oLT hdl_chol 40 then -10 else 0

/-- Exercise bonus/penalty block. -/
def exerciseAdj (exercise : Option ℚ) : ℤ :=
  if oGE exercise 150 then 5
  else if oLT exercise 75 then -10
  else 0

/-- Sleep bonus/penalty block. -/
def sleepAdj (sleep : Option ℚ) : ℤ :=
  if oGE sleep 7 && oLE sleep 8 then 5
  else if oLT sleep 6 || oGT sleep 9 then -10
  else 0

/-- Stress bonus/penalty block. -/
def stressAdj (stress : Option ℚ) : ℤ :=
  if oLE stress 3 then 5
  else if oGE stress 8 then -15
  else 0

/-- Smoking penalty block. -/
def smokingAdj (smoking : Option ℚ) : ℤ :=
  if oEQ smoking 1 then -20 else 0

/-- Score of the latest record: 100 plus all blocks, then
`max(0, min(100, score))`. -/
def healthScoreRecord (r : Record) : ℤ :=
  max 0 (min 100
    (100 + bmiAdj r.bmi + bpAdj r.systolic_bp r.diastolic_bp
      + glucoseAdj r.glucose_fasting + cholAdj r.total_cholesterol
      + hdlAdj r.hdl_cholesterol + exerciseAdj r.exercise_minutes_per_week
      + sleepAdj r.sleep_hours + stressAdj r.stress_level
      + smokingAdj r.smoking_status))

/-- `DataProcessor.calculate_health_score`: 0 on an empty history, else
the clamped score of `data.iloc[-1]`. -/
def calculate_health_score (h : Frame) : ℤ :=
  match h.getLast? with
  | none => 0
  | some r => healthScoreRecord r

/-- The caller's DataFrame after `calculate_health_score` returns: the
function only reads (`data.iloc[-1]`, `.get`), so the caller's object is
unchanged. -/
def calculate_health_score_post (h : Frame) : Frame := h

/-! ### Metrics Engine: `DataProcessor.detect_trends`
(src/models/data_processor.py lines 105-136). -/

/-- The last `n` elements of a list (pandas `tail(n)`). -/
def lastN (n : Nat) (l : List α) : List α :=
  l.drop (l.length - n)

/-- Mean of a pandas Series: NaN cells are skipped; the mean of an
all-NaN (or empty) Series is NaN, modelled as `none`. -/
def omean (l : List (Option ℚ)) : Option ℚ :=
  let vs := l.filterMap id
  if vs.length = 0 then none else some (vs.sum / vs.length)

/-- Python `recent_avg > historical_avg` (false when either is NaN). -/
def oltOpt (historical recent : Option ℚ) : Bool :=
  match historical, recent with
  | some b, some a => decide (b < a)
  | _, _ => false

/-- One entry of the `trends` dict.  `magnitude` is `none` when the
float expression evaluates to NaN (an all-NaN column). -/
structure TrendEntry where
  direction : String
  magnitude : Option ℚ
  recent_avg : Option ℚ
  historical_avg : Option ℚ
deriving DecidableEq

/-- `data.sort_values('date')`.  pandas returns a fresh sorted copy;
we model it with a stable sort (no claim depends on the order of
records sharing a date). -/
def sortByDate (h : Frame) : Frame :=
  h.insertionSort (fun a b => a.date ≤ b.date)

/-- The fixed metric list of `detect_trends`; every name is a column of
every stored record, so the `if metric in data.columns` guard always
holds. -/
def trendMetrics : List String :=
  ["bmi", "systolic_bp", "diastolic_bp", "glucose_fasting", "total_cholesterol"]

/-- `DataProcessor.detect_trends` (the returned `trends` dict, keyed in
metric order).  The `{metric}_trend` rolling-mean column is written only
to the local sorted copy and never read, so it does not appear here.
`trend_magnitude` is `abs(recent - historical) / historical * 100`;
`historical = 0` gives a float infinity in Python, outside this model,
and no claim evaluates a magnitude at a zero historical mean. -/
def detect_trends (h : Frame) : List (String × TrendEntry) :=
  if h.length < 2 then []
  else
    let s := sortByDate h
    trendMetrics.map (fun m =>
      let vals := s.map (fun r => r.col m)
      let recent := omean (lastN 5 vals)
      let historical := if 10 ≤ h.length then omean (vals.take 5) else omean vals
      let dir := if oltOpt historical recent then "increasing" else "decreasing"
      let mag := match recent, historical with
        | some a, some b => some (|a - b| / b * 100)
        | _, _ => none
      (m, ⟨dir, mag, recent, historical⟩))

/-- The caller's DataFrame after `detect_trends` returns: the local name
is rebound to the copy made by `sort_values` before any write, so the
caller's object is untouched. -/
def detect_trends_post (h : Frame) : Frame := h

/-! ### Metrics Engine: `DataProcessor.clean_data` and
`DataProcessor.calculate_derived_metrics`
(src/models/data_processor.py lines 43-103).  Both write columns on the
DataFrame object the caller passed (`data[col] = ...`), so the caller's
frame after the call is the returned frame; the `..._post` definitions
record that aliasing. -/

/-- The per-row effect of `clean_data` on a DataFrame argument: every
column of the `defaults` table gets its default where the cell is
missing/NaN (`data[col] = data[col].fillna(default)`; a wholly absent
column would be created filled with the default, with the same result).
`data['date'] = pd.to_datetime(data['date'])` re-writes the date column
with the same dates and is the identity here.  The `isinstance(data,
dict)` branch (a one-row frame from a dict) is not modelled: callers in
this repository pass DataFrames. -/
def cleanRecord (r : Record) : Record :=
  { r with
    age := some (r.age.getD 40),
    bmi := some (r.bmi.getD 25),
    systolic_bp := some (r.systolic_bp.getD 120),
    diastolic_bp := some (r.diastolic_bp.getD 80),
    glucose_fasting := some (r.glucose_fasting.getD 90),
    total_cholesterol := some (r.total_cholesterol.getD 200),
    hdl_cholesterol := some (r.hdl_cholesterol.getD 50),
    ldl_cholesterol := some (r.ldl_cholesterol.getD 100),
    triglycerides := some (r.triglycerides.getD 150),
    waist_circumference := some (r.waist_circumference.getD 80),
    exercise_minutes_per_week := some (r.exercise_minutes_per_week.getD 150),
    sleep_hours := some (r.sleep_hours.getD 7),
    stress_level := some (r.stress_level.getD 5),
    smoking_status := some (r.smoking_status.getD 0),
    alcohol_consumption := some (r.alcohol_consumption.getD 0) }

/-- `DataProcessor.clean_data` on a DataFrame argument. -/
def clean_data (h : Frame) : Frame :=
  h.map cleanRecord

/-- The caller's DataFrame after `clean_data`: the column writes happen
on the caller's object, so the caller sees the cleaned frame. -/
def clean_data_post (h : Frame) : Frame :=
  clean_data h

/-- The per-row effect of `calculate_derived_metrics`: the four derived
columns.  Ratios with a zero HDL give float infinities in Python,
outside this model; no claim evaluates a ratio at a zero denominator. -/
def deriveRecord (r : Record) : Record :=
  { r with
    pulse_pressure := omap2 (fun a b => a - b) r.systolic_bp r.diastolic_bp,
    total_hdl_quot := omap2 (fun a b => a / b) r.total_cholesterol r.hdl_cholesterol,
    ldl_hdl_quot := omap2 (fun a b => a / b) r.ldl_cholesterol r.hdl_cholesterol,
    cv_risk_score :=
      match r.age, r.bmi, r.systolic_bp, r.total_cholesterol, r.smoking_status with
      | some a, some b, some s, some t, some sm =>
          some (a * 0.1 + b * 0.2 + s * 0.05 + t * 0.01 + sm * 10)
      | _, _, _, _, _ => none }

/-- `DataProcessor.calculate_derived_metrics`: returns the input frame
unchanged when empty, else writes the four derived columns. -/
def calculate_derived_metrics (h : Frame) : Frame :=
  if h = [] then h else h.map deriveRecord

/-- The caller's DataFrame after `calculate_derived_metrics`: the
column writes happen on the caller's object. -/
def calculate_derived_metrics_post (h : Frame) : Frame :=
  calculate_derived_metrics h

/-! ### Metrics Engine: `DataProcessor.validate_health_data`
(src/models/data_processor.py lines 18-41).  The argument is the plain
dict of numbers built by the input form, modelled as an association
list. -/

/-- The validation argument: a dict of numeric fields (the non-numeric
entries of the form dict are never examined by the validator). -/
abbrev FormData := List (String × ℚ)

/-- One check of `validate_health_data`: the error fires when the key is
absent or the value satisfies the out-of-range condition. -/
def fieldBad (d : FormData) (k : String) (bad : ℚ → Bool) : Bool :=
  match List.lookup k d with
  | none => true
  | some v => bad v

/-- `DataProcessor.validate_health_data`: the list of error strings, in
check order. -/
def validate_health_data (d : FormData) : List String :=
  (if fieldBad d "age" (fun v => decide (v ≤ 0) || decide (150 < v)) then
    ["Age must be between 1 and 150 years"] else [])
  ++ (if fieldBad d "bmi" (fun v => decide (v < 10) || decide (60 < v)) then
    ["BMI must be between 10 and 60"] else [])
  ++ (if fieldBad d "systolic_bp" (fun v => decide (v < 70) || decide (250 < v)) then
    ["Systolic blood pressure must be between 70 and 250 mmHg"] else [])
  ++ (if fieldBad d "diastolic_bp" (fun v => decide (v < 40) || decide (150 < v)) then
    ["Diastolic blood pressure must be between 40 and 150 mmHg"] else [])
  ++ (if fieldBad d "glucose_fasting" (fun v => decide (v < 50) || decide (400 < v)) then
    ["Fasting glucose must be between 50 and 400 mg/dL"] else [])
  ++ (if fieldBad d "total_cholesterol" (fun v => decide (v < 100) || decide (500 < v)) then
    ["Total cholesterol must be between 100 and 500 mg/dL"] else [])

/-! ### Alert Engine: `AlertSystem` (src/utils/alerts.py).
Alert messages interpolate formatted floats and are display-only; they
are omitted from the alert value object.  All other provenance fields
are kept. -/

/-- Alert severity.  Every alert the system constructs carries one of
these three, so the `severity_order.get(..., 3)` fallback of the sort
key is dead. -/
inductive Severity
  | critical
  | warning
  | info
deriving DecidableEq

/-- The sort key `severity_order = {'Critical': 0, 'Warning': 1, 'Info': 2}`. -/
def Severity.rank : Severity → Nat
  | .critical => 0
  | .warning => 1
  | .info => 2

/-- One alert dict.  The payload keys differ between the checker passes
(`value`/`threshold` for value alerts, `change` for trend alerts, and so
on); absent keys are `none`/`[]`.  The `coefficient_of_variation`
payload of the BP-variability alert is a float square root and is not
representable here; no claim reads it. -/
structure Alert where
  severity : Severity
  recommendation : String
  metric : String
  value : Option ℚ := none
  threshold : Option ℚ := none
  change : Option ℚ := none
  daysSinceLast : Option ℤ := none
  averageGap : Option ℚ := none
  missing : List String := []
deriving DecidableEq

/-- `_define_alert_thresholds()['critical']`, in insertion order. -/
def criticalThresholds : List (String × ℚ) :=
  [("systolic_bp", 180), ("diastolic_bp", 120), ("glucose_fasting", 250),
   ("total_cholesterol", 300), ("bmi", 40), ("resting_heart_rate", 120)]

/-- `_define_alert_thresholds()['warning']`, in insertion order. -/
def warningThresholds : List (String × ℚ) :=
  [("systolic_bp", 140), ("diastolic_bp", 90), ("glucose_fasting", 126),
   ("total_cholesterol", 240), ("bmi", 30), ("resting_heart_rate", 100),
   ("hdl_cholesterol_low", 40), ("triglycerides", 200)]

/-- `_define_alert_thresholds()['info']`, in insertion order. -/
def infoThresholds : List (String × ℚ) :=
  [("systolic_bp", 130), ("diastolic_bp", 80), ("glucose_fasting", 100),
   ("total_cholesterol", 200), ("bmi", 25),
   ("exercise_minutes_per_week_low", 150), ("sleep_hours_low", 6),
   ("sleep_hours_high", 9), ("stress_level_high", 7)]

/-- `_define_trend_thresholds()['rapid_increase']`, in insertion order. -/
def rapidIncreaseThresholds : List (String × ℚ) :=
  [("bmi", 2), ("systolic_bp", 20), ("glucose_fasting", 30),
   ("total_cholesterol", 50)]

/-- The critical loop body of `_check_value_alerts`. -/
def criticalValueAlerts (r : Record) : List Alert :=
  criticalThresholds.flatMap (fun p =>
    if hasCol p.1 then
      match r.col p.1 with
      | some v =>
          if p.2 ≤ v then
            [{ severity := .critical,
               recommendation := "Seek immediate medical attention",
               metric := p.1, value := some v, threshold := some p.2 }]
          else []
      | none => []
    else [])

/-- The warning loop body of `_check_value_alerts`, including the
inverted `hdl_cholesterol_low` branch.  That branch requires a column
named `hdl_cholesterol_low`, which no record has (`hasCol` is false on
it), so it can never produce its alert. -/
def warningValueAlerts (r : Record) : List Alert :=
  warningThresholds.flatMap (fun p =>
    if hasCol p.1 then
      match r.col p.1 with
      | some v =>
          if p.1 == "hdl_cholesterol_low" then
            if v ≤ p.2 then
              [{ severity := .warning,
                 recommendation := "Consider lifestyle changes to increase HDL",
                 metric := "hdl_cholesterol", value := some v, threshold := some p.2 }]
            else []
          else if p.2 ≤ v then
            [{ severity := .warning,
               recommendation := "Monitor closely and consider intervention",
               metric := p.1, value := some v, threshold := some p.2 }]
          else []
      | none => []
    else [])

/-- The info loop body of `_check_value_alerts`, including the three
special-cased pseudo-metrics; none of those names is a record column,
so those branches can never produce alerts. -/
def infoValueAlerts (r : Record) : List Alert :=
  infoThresholds.flatMap (fun p =>
    if hasCol p.1 then
      match r.col p.1 with
      | some v =>
          if p.1 == "exercise_minutes_per_week_low" || p.1 == "sleep_hours_low" then
            if v ≤ p.2 then
              [{ severity := .info,
                 recommendation := "Consider increasing to meet recommended levels",
                 metric := p.1.replace "_low" "", value := some v, threshold := some p.2 }]
            else []
          else if p.1 == "sleep_hours_high" then
            if p.2 ≤ v then
              [{ severity := .info,
                 recommendation := "Excessive sleep may indicate underlying health issues",
                 metric := "sleep_hours", value := some v, threshold := some p.2 }]
            else []
          else if p.1 == "stress_level_high" then
            if p.2 ≤ v then
              [{ severity := .info,
                 recommendation := "Consider stress management techniques",
                 metric := "stress_level", value := some v, threshold := some p.2 }]
            else []
          else if p.2 ≤ v then
            [{ severity := .info,
               recommendation := "Consider lifestyle modifications",
               metric := p.1, value := some v, threshold := some p.2 }]
          else []
      | none => []
    else [])

/-- `AlertSystem._check_value_alerts` on the latest record. -/
def check_value_alerts (latest : Record) : List Alert :=
  criticalValueAlerts latest ++ warningValueAlerts latest ++ infoValueAlerts latest

/-- `health_data['date'].max()` (only used on non-empty frames). -/
def maxDate (h : Frame) : ℤ :=
  ((h.map (fun r => r.date)).max?).getD 0

/-- Mean of a list of rationals (`Series.mean()` over non-NaN values). -/
def meanQ (l : List ℚ) : ℚ :=
  l.sum / l.length

/-- `AlertSystem._check_trend_alerts`. -/
def check_trend_alerts (h : Frame) : List Alert :=
  if h.length < 2 then []
  else
    (rapidIncreaseThresholds.flatMap (fun p =>
      if hasCol p.1 then
        let recent := h.filter (fun r => decide (maxDate h - 30 < r.date))
        if 2 ≤ recent.length then
          match (recent.getLast?).bind (fun r => r.col p.1),
                (recent.head?).bind (fun r => r.col p.1) with
          | some a, some b =>
              if p.2 ≤ a - b then
                [{ severity := .warning,
                   recommendation := "Monitor closely and consider medical evaluation",
                   metric := p.1, change := some (a - b), threshold := some p.2 }]
              else []
          | _, _ => []
        else []
      else []))
    ++
    (let ex := h.filter (fun r => r.exercise_minutes_per_week.isSome)
     if 2 ≤ ex.length then
       let vals := ex.filterMap (fun r => r.exercise_minutes_per_week)
       let recent := meanQ (lastN 5 vals)
       let historical := meanQ (vals.take 5)
       if decide (0 < historical) && decide (recent / historical < 0.5) then
         [{ severity := .info,
            recommendation :=
              "Consider factors affecting exercise routine and gradually increase activity",
            metric := "exercise_minutes_per_week",
            change := some (recent - historical) }]
       else []
     else [])

/-- `AlertSystem._check_pattern_alerts`.  `now` is the integer day of
`datetime.now()`. -/
def check_pattern_alerts (now : ℤ) (h : Frame) : List Alert :=
  (let days := now - maxDate h
   if 30 < days then
     [{ severity := .info,
        recommendation := "Regular monitoring is important for tracking progress",
        metric := "measurement_frequency", daysSinceLast := some days }]
   else [])
  ++
  (let gaps : List ℤ := (h.zip h.tail).map (fun p => p.2.date - p.1.date)
   if gaps.length ≠ 0 then
     let avg := (gaps.map (fun z => (z : ℚ))).sum / gaps.length
     if 14 < avg then
       [{ severity := .info,
          recommendation :=
            "Consider more frequent monitoring for better trend analysis",
          metric := "measurement_consistency", averageGap := some avg }]
     else []
   else [])
  ++
  (let missing := ["systolic_bp", "diastolic_bp", "glucose_fasting", "bmi"].filter
      (fun m => !hasCol m || h.all (fun r => (r.col m).isNone))
   if missing ≠ [] then
     [{ severity := .info,
        recommendation :=
          "Consider adding these metrics for comprehensive health monitoring",
        metric := "missing_metrics", missing := missing }]
   else [])

/-- Sample variance of a list (pandas `Series.std() ** 2`, `ddof=1`;
only used under a length-at-least-5 guard). -/
def sampleVar (l : List ℚ) : ℚ :=
  (l.map (fun x => (x - meanQ l) ^ 2)).sum / ((l.length : ℚ) - 1)

/-- Decides `std / mean > 0.2` without a square root, where
`std = sqrt v` with `v` the sample variance (so `std ≥ 0`): for a
positive mean this is `v > mean^2 / 25`; for a zero mean the float
quotient is `inf` when `v > 0` (true) and `nan` when `v = 0` (false);
for a negative mean the quotient is non-positive (false). -/
def cvExceedsPointTwo (v mean : ℚ) : Bool :=
  if 0 < mean then decide (mean ^ 2 / 25 < v)
  else if mean = 0 then decide (0 < v)
  else false

/-- `AlertSystem._check_adherence_alerts`. -/
def check_adherence_alerts (h : Frame) : List Alert :=
  if 5 ≤ h.length then
    let bp := h.filter (fun r => r.systolic_bp.isSome && r.diastolic_bp.isSome)
    if 5 ≤ bp.length then
      let vals := bp.filterMap (fun r => r.systolic_bp)
      if cvExceedsPointTwo (sampleVar vals) (meanQ vals) then
        [{ severity := .info,
           recommendation :=
             "Ensure consistent measurement conditions and medication adherence",
           metric := "bp_variability" }]
      else []
    else []
  else []

/-- `AlertSystem.check_alerts`: empty result on an empty history, else
the four checker passes concatenated and stably sorted by severity
rank. -/
def check_alerts (now : ℤ) (h : Frame) : List Alert :=
  match h.getLast? with
  | none => []
  | some latest =>
      (check_value_alerts latest ++ check_trend_alerts h
        ++ check_pattern_alerts now h ++ check_adherence_alerts h).insertionSort
        (fun a b => a.severity.rank ≤ b.severity.rank)

/-! ### Risk Engine: `RiskAssessmentModel.calculate_risk_scores`
(src/models/risk_models.py lines 115-135).  The per-condition
classifiers are sklearn artifacts fitted once at construction on
synthetic data; they are external to the rule logic and are modelled as
an oracle parameter.  A `none` answer models the swallowed internal
exception, which the source replaces with a zero score. -/

/-- The Risk Score Set dict, keyed by the three conditions. -/
structure RiskScores where
  pre_diabetes : ℚ
  hypertension : ℚ
  metabolic_syndrome : ℚ
deriving DecidableEq

/-- `RiskAssessmentModel.calculate_risk_scores`: all-zero scores on an
empty history, else the oracle's positive-class probability per
condition on the latest record (feature preparation and scaling are
folded into the oracle), with 0 substituted on internal failure. -/
def calculate_risk_scores (predict : String → Record → Option ℚ) (h : Frame) :
    RiskScores :=
  match h.getLast? with
  | none => ⟨0, 0, 0⟩
  | some r =>
      ⟨(predict "pre_diabetes" r).getD 0,
       (predict "hypertension" r).getD 0,
       (predict "metabolic_syndrome" r).getD 0⟩

/-! ### Intervention Catalog: `InterventionEngine`
(src/components/intervention_engine.py).  Catalog entries keep the
fields the engine logic reads or rewrites (title, priority,
evidence level, target conditions, duration, personalized note); the
free-text display fields (description, expected outcome, action steps)
are never read by `get_interventions` and are omitted. -/

/-- One intervention catalog entry / one annotated result entry. -/
structure Intervention where
  title : String
  priority : String
  evidence_level : String
  target_conditions : List String
  duration : String
  personalized_note : Option String := none
deriving DecidableEq

/-- `InterventionEngine._build_intervention_library()`, in insertion
order. -/
def intervention_library : List (String × List Intervention) :=
  [("dietary_interventions",
    [{ title := "Mediterranean Diet Adoption", priority := "High",
       evidence_level := "Strong",
       target_conditions := ["pre_diabetes", "hypertension", "metabolic_syndrome"],
       duration := "3-6 months" },
     { title := "DASH Diet Implementation", priority := "High",
       evidence_level := "Strong", target_conditions := ["hypertension"],
       duration := "2-4 weeks to see initial results" },
     { title := "Carbohydrate Counting", priority := "Medium",
       evidence_level := "Moderate", target_conditions := ["pre_diabetes"],
       duration := "4-8 weeks" }]),
   ("exercise_interventions",
    [{ title := "Progressive Aerobic Exercise Program", priority := "High",
       evidence_level := "Strong",
       target_conditions := ["pre_diabetes", "hypertension", "metabolic_syndrome"],
       duration := "8-12 weeks" },
     { title := "Resistance Training Program", priority := "Medium",
       evidence_level := "Moderate",
       target_conditions := ["pre_diabetes", "metabolic_syndrome"],
       duration := "6-8 weeks" },
     { title := "High-Intensity Interval Training (HIIT)", priority := "Medium",
       evidence_level := "Moderate",
       target_conditions := ["pre_diabetes", "metabolic_syndrome"],
       duration := "4-6 weeks" }]),
   ("lifestyle_interventions",
    [{ title := "Stress Management Program", priority := "High",
       evidence_level := "Moderate",
       target_conditions := ["hypertension", "metabolic_syndrome"],
       duration := "6-8 weeks" },
     { title := "Sleep Hygiene Improvement", priority := "Medium",
       evidence_level := "Moderate",
       target_conditions := ["pre_diabetes", "metabolic_syndrome"],
       duration := "2-4 weeks" },
     { title := "Smoking Cessation Program", priority := "Critical",
       evidence_level := "Strong",
       target_conditions := ["hypertension", "metabolic_syndrome"],
       duration := "12-16 weeks" }]),
   ("monitoring_interventions",
    [{ title := "Home Blood Pressure Monitoring", priority := "High",
       evidence_level := "Strong", target_conditions := ["hypertension"],
       duration := "Ongoing" },
     { title := "Glucose Self-Monitoring", priority := "Medium",
       evidence_level := "Moderate", target_conditions := ["pre_diabetes"],
       duration := "Ongoing" },
     { title := "Weight Management Tracking", priority := "Medium",
       evidence_level := "Moderate",
       target_conditions := ["pre_diabetes", "metabolic_syndrome"],
       duration := "Ongoing" }])]

/-- The per-entry filter/annotation step of `get_interventions`:
escalate on a high-risk target, annotate on a medium-risk target, else
keep only High/Critical base-priority entries. -/
def personalize (high med : List String) (iv : Intervention) : Option Intervention :=
  if iv.target_conditions.any (fun c => high.contains c) then
    some { iv with
           priority := "Critical"
           personalized_note :=
             some ("High priority due to elevated risk in "
               ++ String.intercalate ", " high) }
  else if iv.target_conditions.any (fun c => med.contains c) then
    some { iv with
           personalized_note :=
             some ("Recommended due to moderate risk in "
               ++ String.intercalate ", " med) }
  else if iv.priority == "High" || iv.priority == "Critical" then
    some { iv with personalized_note := some "General health maintenance" }
  else none

/-- `InterventionEngine._add_specific_recommendations`: the ad hoc
entries appended per category from the latest record.  The Python
`.get(col, default)` defaults are dead (columns always present); NaN
cells fail the comparisons, so nothing is appended for them.  The
personalized notes interpolate the measured value; Python renders it in
float notation, here it is rendered as a rational string, and no claim
reads these notes. -/
def specificRecs (cat : String) (latest : Record) : List Intervention :=
  if cat == "dietary_interventions" then
    (if oGT latest.bmi 30 then
      [{ title := "Calorie Restriction for Weight Loss", priority := "High",
         evidence_level := "Strong",
         target_conditions := ["pre_diabetes", "metabolic_syndrome"],
         duration := "3-6 months",
         personalized_note :=
           some ("Recommended due to BMI of " ++ toString (latest.bmi.getD 25)) }]
     else [])
    ++
    (if oGT latest.glucose_fasting 100 then
      [{ title := "Glycemic Index Management", priority := "High",
         evidence_level := "Moderate", target_conditions := ["pre_diabetes"],
         duration := "4-6 weeks",
         personalized_note :=
           some ("Recommended due to fasting glucose of "
             ++ toString (latest.glucose_fasting.getD 90) ++ " mg/dL") }]
     else [])
  else if cat == "lifestyle_interventions" then
    if oGT latest.systolic_bp 130 then
      [{ title := "Sodium Reduction Protocol", priority := "High",
         evidence_level := "Strong", target_conditions := ["hypertension"],
         duration := "2-4 weeks",
         personalized_note :=
           some ("Recommended due to systolic BP of "
             ++ toString (latest.systolic_bp.getD 120) ++ " mmHg") }]
    else []
  else if cat == "exercise_interventions" then
    if oLT latest.exercise_minutes_per_week 150 then
      [{ title := "Physical Activity Increase Plan", priority := "High",
         evidence_level := "Strong",
         target_conditions := ["pre_diabetes", "hypertension", "metabolic_syndrome"],
         duration := "6-8 weeks",
         personalized_note :=
           some ("Current activity level: "
             ++ toString (latest.exercise_minutes_per_week.getD 150)
             ++ " minutes/week") }]
    else []
  else []

/-- `InterventionEngine.get_interventions`: `{}` on an empty history,
else the per-category filtered/annotated catalog with the
metric-specific entries appended to their categories. -/
def get_interventions (h : Frame) (risk_scores : List (String × ℚ)) :
    List (String × List Intervention) :=
  match h.getLast? with
  | none => []
  | some latest =>
      let high := (risk_scores.filter (fun p => decide (0.7 < p.2))).map (fun p => p.1)
      let med := (risk_scores.filter
        (fun p => decide (0.4 < p.2) && decide (p.2 ≤ 0.7))).map (fun p => p.1)
      intervention_library.map (fun ci =>
        (ci.1, (ci.2.filterMap (personalize high med)) ++ specificRecs ci.1 latest))

/-! ### Concrete example inputs used to settle specific claims -/

/-- A benign record: every engine metric present and in its optimal
range. -/
def baseRecord : Record :=
  { date := 0, age := some 40, height := some 170, weight := some 70,
    bmi := some 22, waist_circumference := some 80,
    systolic_bp := some 120, diastolic_bp := some 78,
    resting_heart_rate := some 70, glucose_fasting := some 90,
    hba1c := some 5, total_cholesterol := some 180,
    hdl_cholesterol := some 55, ldl_cholesterol := some 100,
    triglycerides := some 100, exercise_minutes_per_week := some 200,
    sleep_hours := some 7.5, stress_level := some 2,
    smoking_status := some 0, alcohol_consumption := some 0,
    diet_quality := some 3 }

/-- The first record of the two-point trend example (metric value
100). -/
def c3RecordA : Record := { date := 0, bmi := some 100 }

/-- The second record of the two-point trend example (metric value
110, one day later). -/
def c3RecordB : Record := { date := 1, bmi := some 110 }

/-- A two-record history whose `bmi` values are [100, 110] in date
order. -/
def c3Frame : Frame := [c3RecordA, c3RecordB]

/-- A single benign record whose HDL cholesterol (30) is below the
warning threshold 40. -/
def c4Record : Record :=
  { date := 0, bmi := some 22, systolic_bp := some 120,
    diastolic_bp := some 78, glucose_fasting := some 90,
    hdl_cholesterol := some 30 }

/-- A single benign record except for a systolic blood pressure of
185. -/
def c5Record : Record := { baseRecord with systolic_bp := some 185 }

/-- The risk-score dict of the intervention-escalation example. -/
def c7Scores : List (String × ℚ) :=
  [("pre_diabetes", 0.8), ("hypertension", 0.2), ("metabolic_syndrome", 0.1)]

/-- The critical-tier threshold entries whose metric also has a warning
and an info threshold (every critical entry except
`resting_heart_rate`, which has no info threshold). -/
def fullTierCriticalThresholds : List (String × ℚ) :=
  [("systolic_bp", 180), ("diastolic_bp", 120), ("glucose_fasting", 250),
   ("total_cholesterol", 300), ("bmi", 40)]

/-! ## Theorems -/

/-- Clamping `max(0, min(100, score))` is monotone. -/
lemma clampMono {a b : ℤ} (h : a ≤ b) :
    max 0 (min 100 a) ≤ max 0 (min 100 b) :=
  max_le_max le_rfl (min_le_min le_rfl h)

/-- C1: For every history, including the empty history,
`calculate_health_score` returns a value in the interval [0, 100], and
an empty history yields 0. -/
theorem health_score_in_range (h : Frame) :
    0 ≤ calculate_health_score h ∧ calculate_health_score h ≤ 100 ∧
      (h = [] → calculate_health_score h = 0) := by
  refine ⟨?_, ?_, ?_⟩
  · cases hL : h.getLast? with
    | none => simp [calculate_health_score, hL]
    | some r =>
        simp only [calculate_health_score, hL]
        exact le_max_left 0 _
  · cases hL : h.getLast? with
    | none => simp [calculate_health_score, hL]
    | some r =>
        simp only [calculate_health_score, hL, healthScoreRecord]
        exact max_le (by norm_num) (min_le_left _ _)
  · intro hnil
    subst hnil
    rfl

/-- C1 witness: the bounds and the empty-history value at the empty
history. -/
theorem health_score_in_range_witness :
    0 ≤ calculate_health_score [] ∧ calculate_health_score [] ≤ 100 ∧
      calculate_health_score [] = 0 :=
  ⟨(health_score_in_range []).1, (health_score_in_range []).2.1,
    (health_score_in_range []).2.2 rfl⟩

/-- C2: On an empty history every engine returns its well-defined
empty/zero result: `calculate_risk_scores` is exactly the all-zero
score set (for any classifier oracle), `check_alerts` is the empty
alert list (at any wall-clock time), and `calculate_health_score` is
0. -/
theorem engines_empty_history (predict : String → Record → Option ℚ) (now : ℤ) :
    calculate_risk_scores predict [] = ⟨0, 0, 0⟩ ∧
      check_alerts now [] = [] ∧ calculate_health_score [] = 0 :=
  ⟨rfl, rfl, rfl⟩

/-- The BMI penalty block is antitone at or beyond the overweight
threshold 25. -/
lemma bmiAdj_antitone {x y : ℚ} (hx : 25 ≤ x) (hxy : x ≤ y) :
    bmiAdj (some y) ≤ bmiAdj (some x) := by
  simp only [bmiAdj, oGT, oLT, decide_eq_true_eq]
  split_ifs <;> norm_num <;> linarith

/-- The blood-pressure penalty block is antitone in systolic BP, for
any fixed diastolic cell. -/
lemma bpAdj_antitone (d : Option ℚ) {x y : ℚ} (hxy : x ≤ y) :
    bpAdj (some y) d ≤ bpAdj (some x) d := by
  simp only [bpAdj, oGT, Bool.or_eq_true, decide_eq_true_eq]
  split_ifs <;> simp_all <;> linarith

/-- The glucose penalty block is antitone. -/
lemma glucoseAdj_antitone {x y : ℚ} (hxy : x ≤ y) :
    glucoseAdj (some y) ≤ glucoseAdj (some x) := by
  simp only [glucoseAdj, oGT, decide_eq_true_eq]
  split_ifs <;> norm_num <;> linarith

/-- C6: Holding every other field of the latest record fixed,
`calculate_health_score` is monotonically non-increasing in systolic
blood pressure (everywhere, so in particular beyond the 130 penalty
threshold), in fasting glucose (likewise, beyond 100), and in BMI at or
beyond the 25 penalty threshold. -/
theorem health_score_antitone (h : Frame) (r : Record) (x y : ℚ) (hxy : x ≤ y) :
    ((25 ≤ x) → calculate_health_score (h ++ [{ r with bmi := some y }]) ≤
        calculate_health_score (h ++ [{ r with bmi := some x }])) ∧
    ((130 ≤ x) → calculate_health_score (h ++ [{ r with systolic_bp := some y }]) ≤
        calculate_health_score (h ++ [{ r with systolic_bp := some x }])) ∧
    ((100 ≤ x) → calculate_health_score (h ++ [{ r with glucose_fasting := some y }]) ≤
        calculate_health_score (h ++ [{ r with glucose_fasting := some x }])) := by
  refine ⟨fun hx => ?_, fun _ => ?_, fun _ => ?_⟩ <;>
    simp only [calculate_health_score, List.getLast?_concat, healthScoreRecord]
  · exact clampMono (by
      have := bmiAdj_antitone hx hxy
      omega)
  · exact clampMono (by
      have := bpAdj_antitone r.diastolic_bp hxy
      omega)
  · exact clampMono (by
      have := glucoseAdj_antitone hxy
      omega)

/-- C6 witness: the three monotonicity facts instantiated on a concrete
record at x = 26 ≤ y = 31 (and 130 ≤ 130 ≤ 131, 100 ≤ 101 ≤ 127). -/
theorem health_score_antitone_witness :
    calculate_health_score [{ date := 0, bmi := some 31 }] ≤
      calculate_health_score [{ date := 0, bmi := some 26 }] :=
  (health_score_antitone [] { date := 0 } 26 31 (by norm_num)).1 (by norm_num)

/-- A validation check block is empty exactly when its condition fails. -/
lemma ifBlock_eq_nil (b : Bool) (s : String) :
    (if b then [s] else []) = [] ↔ b = false := by
  cases b <;> simp

/-- Membership in a validation check block. -/
lemma ifBlock_mem (b : Bool) (s t : String) :
    s ∈ (if b then [t] else []) ↔ (b = true ∧ s = t) := by
  cases b <;> simp

/-- A check passes exactly when the key is present with an acceptable
value. -/
lemma fieldBad_eq_false_iff (d : FormData) (k : String) (bad : ℚ → Bool) :
    fieldBad d k bad = false ↔
      ∃ v, List.lookup k d = some v ∧ bad v = false := by
  unfold fieldBad
  cases List.lookup k d <;> simp

/-- A check of the shape of the age check fires exactly when the field
is missing or out of range. -/
lemma fieldBad_age_shape (d : FormData) (k : String) (hi : ℚ) :
    fieldBad d k (fun v => decide (v ≤ 0) || decide (hi < v)) = true ↔
      ¬ ∃ v, List.lookup k d = some v ∧ 0 < v ∧ v ≤ hi := by
  unfold fieldBad
  cases List.lookup k d with
  | none => simp
  | some v =>
      simp only [Bool.or_eq_true, decide_eq_true_eq, Option.some.injEq]
      constructor
      · rintro (hv | hv) ⟨w, hw, h0, h1⟩ <;> [skip; skip] <;>
          (subst hw; linarith)
      · intro hn
        by_contra hc
        push_neg at hc
        exact hn ⟨v, rfl, by linarith [hc.1], by linarith [hc.2]⟩

/-- A check of the shape of the other five checks fires exactly when
the field is missing or out of range. -/
lemma fieldBad_range_shape (d : FormData) (k : String) (lo hi : ℚ) :
    fieldBad d k (fun v => decide (v < lo) || decide (hi < v)) = true ↔
      ¬ ∃ v, List.lookup k d = some v ∧ lo ≤ v ∧ v ≤ hi := by
  unfold fieldBad
  cases List.lookup k d with
  | none => simp
  | some v =>
      simp only [Bool.or_eq_true, decide_eq_true_eq, Option.some.injEq]
      constructor
      · rintro (hv | hv) ⟨w, hw, h0, h1⟩ <;> [skip; skip] <;>
          (subst hw; linarith)
      · intro hn
        by_contra hc
        push_neg at hc
        exact hn ⟨v, rfl, by linarith [hc.1], by linarith [hc.2]⟩

/-- C8: `validate_health_data` is a total function into lists of
descriptive strings (so this path never raises): its result is drawn
from the six fixed messages, each message is present exactly when its
field is missing or out of range, and the result is empty exactly when
the record passes all six required-field range checks. -/
theorem validate_health_data_spec (d : FormData) :
    (validate_health_data d = [] ↔
      ((∃ v, List.lookup "age" d = some v ∧ 0 < v ∧ v ≤ 150) ∧
       (∃ v, List.lookup "bmi" d = some v ∧ 10 ≤ v ∧ v ≤ 60) ∧
       (∃ v, List.lookup "systolic_bp" d = some v ∧ 70 ≤ v ∧ v ≤ 250) ∧
       (∃ v, List.lookup "diastolic_bp" d = some v ∧ 40 ≤ v ∧ v ≤ 150) ∧
       (∃ v, List.lookup "glucose_fasting" d = some v ∧ 50 ≤ v ∧ v ≤ 400) ∧
       (∃ v, List.lookup "total_cholesterol" d = some v ∧ 100 ≤ v ∧ v ≤ 500))) ∧
    (("Age must be between 1 and 150 years" ∈ validate_health_data d ↔
       ¬ ∃ v, List.lookup "age" d = some v ∧ 0 < v ∧ v ≤ 150) ∧
     ("BMI must be between 10 and 60" ∈ validate_health_data d ↔
       ¬ ∃ v, List.lookup "bmi" d = some v ∧ 10 ≤ v ∧ v ≤ 60) ∧
     ("Systolic blood pressure must be between 70 and 250 mmHg" ∈ validate_health_data d ↔
       ¬ ∃ v, List.lookup "systolic_bp" d = some v ∧ 70 ≤ v ∧ v ≤ 250) ∧
     ("Diastolic blood pressure must be between 40 and 150 mmHg" ∈ validate_health_data d ↔
       ¬ ∃ v, List.lookup "diastolic_bp" d = some v ∧ 40 ≤ v ∧ v ≤ 150) ∧
     ("Fasting glucose must be between 50 and 400 mg/dL" ∈ validate_health_data d ↔
       ¬ ∃ v, List.lookup "glucose_fasting" d = some v ∧ 50 ≤ v ∧ v ≤ 400) ∧
     ("Total cholesterol must be between 100 and 500 mg/dL" ∈ validate_health_data d ↔
       ¬ ∃ v, List.lookup "total_cholesterol" d = some v ∧ 100 ≤ v ∧ v ≤ 500)) ∧
    (∀ s ∈ validate_health_data d,
      s ∈ ["Age must be between 1 and 150 years",
           "BMI must be between 10 and 60",
           "Systolic blood pressure must be between 70 and 250 mmHg",
           "Diastolic blood pressure must be between 40 and 150 mmHg",
           "Fasting glucose must be between 50 and 400 mg/dL",
           "Total cholesterol must be between 100 and 500 mg/dL"]) := by
  refine ⟨?_, ⟨?_, ?_, ?_, ?_, ?_, ?_⟩, ?_⟩
  · simp only [validate_health_data, List.append_eq_nil, ifBlock_eq_nil,
      fieldBad_eq_false_iff, Bool.or_eq_false_iff, decide_eq_false_iff_not,
      not_lt, not_le]
    tauto
  · rw [← fieldBad_age_shape d "age" 150]
    simp [validate_health_data, ifBlock_mem]
  · rw [← fieldBad_range_shape d "bmi" 10 60]
    simp [validate_health_data, ifBlock_mem]
  · rw [← fieldBad_range_shape d "systolic_bp" 70 250]
    simp [validate_health_data, ifBlock_mem]
  · rw [← fieldBad_range_shape d "diastolic_bp" 40 150]
    simp [validate_health_data, ifBlock_mem]
  · rw [← fieldBad_range_shape d "glucose_fasting" 50 400]
    simp [validate_health_data, ifBlock_mem]
  · rw [← fieldBad_range_shape d "total_cholesterol" 100 500]
    simp [validate_health_data, ifBlock_mem]
  · intro s hs
    simp only [validate_health_data, List.mem_append, ifBlock_mem] at hs
    rcases hs with ((((((⟨_, h⟩ | ⟨_, h⟩) | ⟨_, h⟩) | ⟨_, h⟩) | ⟨_, h⟩) | ⟨_, h⟩))
    all_goals subst h
    all_goals simp

/-- Evaluation helper: `filterMap id` on the two-point column. -/
lemma filterMap_id_c3 :
    List.filterMap id [some (100 : ℚ), some 110] = [100, 110] := rfl

/-- Evaluation helper: the trend entry `detect_trends` computes for
`bmi` on the two-point history: both the recent (tail-5) mean and the
historical (all-values) mean are 105, so the strict `>` comparison
fails and the magnitude is 0. -/
lemma detect_trends_c3_eval :
    (detect_trends c3Frame).lookup "bmi" =
      some ⟨"decreasing", some 0, some 105, some 105⟩ := by
  have h1 : omean [some (100 : ℚ), some 110] = some 105 := by
    norm_num [omean, filterMap_id_c3]
  norm_num [detect_trends, c3Frame, c3RecordA, c3RecordB, sortByDate,
    List.insertionSort, List.orderedInsert, trendMetrics, lastN,
    oltOpt, Record.col, List.lookup, h1]

/-- C3 counterexample: on the two-record history with `bmi` values
[100, 110] in date order, the reported direction for `bmi` is not
"increasing" and the reported magnitude is not 10 — both tail-5 and
historical means are 105, the strict comparison ties, and the claim
fails at this input. -/
theorem detect_trends_two_points_counterexample :
    ((detect_trends c3Frame).lookup "bmi").map TrendEntry.direction ≠
        some "increasing" ∧
      ((detect_trends c3Frame).lookup "bmi").map TrendEntry.magnitude ≠
        some (some 10) := by
  rw [detect_trends_c3_eval]
  refine ⟨by simp, by simp⟩

/-- C3 (amended): `detect_trends` returns an empty result for every
history with fewer than 2 records; on the two-record history with
`bmi` values [100, 110] in date order, the recent (tail-5) mean and the
historical mean are both 105, so the reported direction is
"decreasing" (the strict `>` comparison resolves ties to "decreasing")
with percent magnitude 0. -/
theorem detect_trends_short_and_two_points :
    (∀ h : Frame, h.length < 2 → detect_trends h = []) ∧
      (detect_trends c3Frame).lookup "bmi" =
        some ⟨"decreasing", some 0, some 105, some 105⟩ := by
  constructor
  · intro h hlen
    simp only [detect_trends, if_pos hlen]
  · exact detect_trends_c3_eval

/-- C3 witness: the amended theorem applied at the empty history. -/
theorem detect_trends_short_and_two_points_witness :
    detect_trends [] = [] :=
  detect_trends_short_and_two_points.1 [] (by decide)

/-- C4: Evaluation at the failing input.  The latest (only) record has
`hdl_cholesterol = 30`, below the warning threshold 40, yet
`check_alerts` returns no alert at all: the warning tier looks up the
pseudo-column `hdl_cholesterol_low`, which no record possesses, so the
inverted HDL warning branch is unreachable and no Warning alert with
metric `hdl_cholesterol` is ever produced. -/
theorem check_alerts_low_hdl_eval :
    c4Record.hdl_cholesterol = some 30 ∧ check_alerts 0 [c4Record] = [] :=
  ⟨rfl, by decide⟩

/-- Alerts of the value pass survive into the sorted `check_alerts`
result. -/
lemma mem_check_alerts_of_value {now : ℤ} {h : Frame} {latest : Record} {a : Alert}
    (hL : h.getLast? = some latest) (ha : a ∈ check_value_alerts latest) :
    a ∈ check_alerts now h := by
  simp only [check_alerts, hL]
  exact ((List.perm_insertionSort _ _).mem_iff).2 (by simp [List.mem_append, ha])

/-- A critical-table entry whose column is present and at or above its
threshold produces its Critical alert. -/
lemma mem_criticalValueAlerts {r : Record} {m : String} {θ v : ℚ}
    (ht : (m, θ) ∈ criticalThresholds) (hc : hasCol m = true)
    (hv : r.col m = some v) (hθ : θ ≤ v) :
    ({ severity := .critical, recommendation := "Seek immediate medical attention",
       metric := m, value := some v, threshold := some θ } : Alert)
      ∈ criticalValueAlerts r := by
  unfold criticalValueAlerts
  rw [List.mem_flatMap]
  refine ⟨(m, θ), ht, ?_⟩
  simp [hc, hv, hθ]

/-- A warning-table entry other than the HDL pseudo-metric, with its
column present and at or above its threshold, produces its Warning
alert. -/
lemma mem_warningValueAlerts {r : Record} {m : String} {θ v : ℚ}
    (ht : (m, θ) ∈ warningThresholds)
    (hne : (m == "hdl_cholesterol_low") = false)
    (hc : hasCol m = true) (hv : r.col m = some v) (hθ : θ ≤ v) :
    ({ severity := .warning, recommendation := "Monitor closely and consider intervention",
       metric := m, value := some v, threshold := some θ } : Alert)
      ∈ warningValueAlerts r := by
  unfold warningValueAlerts
  rw [List.mem_flatMap]
  refine ⟨(m, θ), ht, ?_⟩
  simp [hc, hv, hne, hθ]

/-- An info-table entry other than the four pseudo-metrics, with its
column present and at or above its threshold, produces its Info
alert. -/
lemma mem_infoValueAlerts {r : Record} {m : String} {θ v : ℚ}
    (ht : (m, θ) ∈ infoThresholds)
    (h1 : (m == "exercise_minutes_per_week_low") = false)
    (h2 : (m == "sleep_hours_low") = false)
    (h3 : (m == "sleep_hours_high") = false)
    (h4 : (m == "stress_level_high") = false)
    (hc : hasCol m = true) (hv : r.col m = some v) (hθ : θ ≤ v) :
    ({ severity := .info, recommendation := "Consider lifestyle modifications",
       metric := m, value := some v, threshold := some θ } : Alert)
      ∈ infoValueAlerts r := by
  unfold infoValueAlerts
  rw [List.mem_flatMap]
  refine ⟨(m, θ), ht, ?_⟩
  simp [hc, hv, h1, h2, h3, h4, hθ]

/-- Critical-pass alerts are value alerts. -/
lemma mem_value_of_critical {r : Record} {a : Alert}
    (ha : a ∈ criticalValueAlerts r) : a ∈ check_value_alerts r := by
  unfold check_value_alerts
  exact List.mem_append_left _ (List.mem_append_left _ ha)

/-- Warning-pass alerts are value alerts. -/
lemma mem_value_of_warning {r : Record} {a : Alert}
    (ha : a ∈ warningValueAlerts r) : a ∈ check_value_alerts r := by
  unfold check_value_alerts
  exact List.mem_append_left _ (List.mem_append_right _ ha)

/-- Info-pass alerts are value alerts. -/
lemma mem_value_of_info {r : Record} {a : Alert}
    (ha : a ∈ infoValueAlerts r) : a ∈ check_value_alerts r := by
  unfold check_value_alerts
  exact List.mem_append_right _ ha

/-- The result of `check_alerts` is sorted by severity rank. -/
lemma check_alerts_sorted (now : ℤ) (h : Frame) :
    (check_alerts now h).Pairwise (fun a b => a.severity.rank ≤ b.severity.rank) := by
  unfold check_alerts
  cases h.getLast? with
  | none => simp
  | some latest =>
      haveI : IsTotal Alert (fun a b => a.severity.rank ≤ b.severity.rank) :=
        ⟨fun a b => Nat.le_total _ _⟩
      haveI : IsTrans Alert (fun a b => a.severity.rank ≤ b.severity.rank) :=
        ⟨fun a b c => Nat.le_trans⟩
      exact List.sorted_insertionSort _ _

/-- C5: For every non-empty history whose latest record has
`systolic_bp = 185`, `check_alerts` returns at least one Critical alert
with metric `systolic_bp` and threshold 180, and the returned list is
sorted by the fixed severity order (rank Critical 0 < Warning 1 <
Info 2), so every Critical alert precedes every Warning alert, which
precedes every Info alert. -/
theorem check_alerts_systolic_185 (now : ℤ) (h : Frame) (latest : Record)
    (hL : h.getLast? = some latest) (hs : latest.systolic_bp = some 185) :
    (∃ a ∈ check_alerts now h,
      a.severity = Severity.critical ∧ a.metric = "systolic_bp" ∧
        a.threshold = some 180) ∧
    (check_alerts now h).Pairwise (fun a b => a.severity.rank ≤ b.severity.rank) := by
  refine ⟨?_, check_alerts_sorted now h⟩
  refine ⟨_, mem_check_alerts_of_value hL (mem_value_of_critical
    (@mem_criticalValueAlerts latest "systolic_bp" 180 185 (by decide) (by decide)
      ((rfl : latest.col "systolic_bp" = latest.systolic_bp).trans hs)
      (by norm_num))), rfl, rfl, rfl⟩

/-- C5 witness: the theorem at the one-record history whose systolic
blood pressure is 185. -/
theorem check_alerts_systolic_185_witness :
    (∃ a ∈ check_alerts 0 [c5Record],
      a.severity = Severity.critical ∧ a.metric = "systolic_bp" ∧
        a.threshold = some 180) ∧
    (check_alerts 0 [c5Record]).Pairwise
      (fun a b => a.severity.rank ≤ b.severity.rank) :=
  check_alerts_systolic_185 0 [c5Record] c5Record rfl rfl

/-- A metric with thresholds in all three tiers, present at or above
each of them, produces one value alert in each tier. -/
lemma tiers_of_thresholds {now : ℤ} {h : Frame} {latest : Record} {m : String}
    {v : ℚ} (θc θw θi : ℚ) (hL : h.getLast? = some latest)
    (hmc : (m, θc) ∈ criticalThresholds) (hmw : (m, θw) ∈ warningThresholds)
    (hmi : (m, θi) ∈ infoThresholds)
    (hne : (m == "hdl_cholesterol_low") = false)
    (h1 : (m == "exercise_minutes_per_week_low") = false)
    (h2 : (m == "sleep_hours_low") = false)
    (h3 : (m == "sleep_hours_high") = false)
    (h4 : (m == "stress_level_high") = false)
    (hc : hasCol m = true) (hv : latest.col m = some v)
    (hθc : θc ≤ v) (hθw : θw ≤ v) (hθi : θi ≤ v) :
    (∃ a ∈ check_alerts now h, a.severity = Severity.critical ∧ a.metric = m) ∧
    (∃ a ∈ check_alerts now h, a.severity = Severity.warning ∧ a.metric = m) ∧
    (∃ a ∈ check_alerts now h, a.severity = Severity.info ∧ a.metric = m) :=
  ⟨⟨{ severity := .critical,
      recommendation := "Seek immediate medical attention",
      metric := m, value := some v, threshold := some θc },
    mem_check_alerts_of_value hL
      (mem_value_of_critical (mem_criticalValueAlerts hmc hc hv hθc)),
    rfl, rfl⟩,
   ⟨{ severity := .warning,
      recommendation := "Monitor closely and consider intervention",
      metric := m, value := some v, threshold := some θw },
    mem_check_alerts_of_value hL
      (mem_value_of_warning (mem_warningValueAlerts hmw hne hc hv hθw)),
    rfl, rfl⟩,
   ⟨{ severity := .info,
      recommendation := "Consider lifestyle modifications",
      metric := m, value := some v, threshold := some θi },
    mem_check_alerts_of_value hL
      (mem_value_of_info (mem_infoValueAlerts hmi h1 h2 h3 h4 hc hv hθi)),
    rfl, rfl⟩⟩

/-- C10: Value alerts are not deduplicated across severity tiers.  For
each of the five metrics carrying thresholds in all three tiers
(`systolic_bp`, `diastolic_bp`, `glucose_fasting`, `total_cholesterol`,
`bmi`), a latest record at or above the Critical threshold also meets
the Warning and Info thresholds, and `check_alerts` emits a Critical, a
Warning and an Info alert all for that metric (for example,
systolic_bp = 185 yields all three). -/
theorem check_alerts_tiers_not_deduplicated (now : ℤ) (h : Frame)
    (latest : Record) (m : String) (θ v : ℚ) (hL : h.getLast? = some latest)
    (ht : (m, θ) ∈ fullTierCriticalThresholds)
    (hv : latest.col m = some v) (hθ : θ ≤ v) :
    (∃ a ∈ check_alerts now h, a.severity = Severity.critical ∧ a.metric = m) ∧
    (∃ a ∈ check_alerts now h, a.severity = Severity.warning ∧ a.metric = m) ∧
    (∃ a ∈ check_alerts now h, a.severity = Severity.info ∧ a.metric = m) := by
  simp only [fullTierCriticalThresholds, List.mem_cons, List.not_mem_nil,
    or_false, Prod.mk.injEq] at ht
  rcases ht with ⟨rfl, rfl⟩ | ⟨rfl, rfl⟩ | ⟨rfl, rfl⟩ | ⟨rfl, rfl⟩ | ⟨rfl, rfl⟩
  · exact tiers_of_thresholds 180 140 130 hL (by decide) (by decide) (by decide)
      (by decide) (by decide) (by decide) (by decide) (by decide) (by decide)
      hv hθ (by linarith) (by linarith)
  · exact tiers_of_thresholds 120 90 80 hL (by decide) (by decide) (by decide)
      (by decide) (by decide) (by decide) (by decide) (by decide) (by decide)
      hv hθ (by linarith) (by linarith)
  · exact tiers_of_thresholds 250 126 100 hL (by decide) (by decide) (by decide)
      (by decide) (by decide) (by decide) (by decide) (by decide) (by decide)
      hv hθ (by linarith) (by linarith)
  · exact tiers_of_thresholds 300 240 200 hL (by decide) (by decide) (by decide)
      (by decide) (by decide) (by decide) (by decide) (by decide) (by decide)
      hv hθ (by linarith) (by linarith)
  · exact tiers_of_thresholds 40 30 25 hL (by decide) (by decide) (by decide)
      (by decide) (by decide) (by decide) (by decide) (by decide) (by decide)
      hv hθ (by linarith) (by linarith)

/-- C10 witness: all three tiers fire for `systolic_bp` at 185 on the
one-record history. -/
theorem check_alerts_tiers_not_deduplicated_witness :
    (∃ a ∈ check_alerts 0 [c5Record],
      a.severity = Severity.critical ∧ a.metric = "systolic_bp") ∧
    (∃ a ∈ check_alerts 0 [c5Record],
      a.severity = Severity.warning ∧ a.metric = "systolic_bp") ∧
    (∃ a ∈ check_alerts 0 [c5Record],
      a.severity = Severity.info ∧ a.metric = "systolic_bp") :=
  check_alerts_tiers_not_deduplicated 0 [c5Record] c5Record "systolic_bp" 180 185
    rfl (by decide) rfl (by norm_num)

/-- C9 counterexample: `calculate_derived_metrics` writes its derived
columns on the caller's DataFrame (`data['pulse_pressure'] = ...`), so
the caller's one-record history is changed by the call — the claim that
every engine operation leaves the caller's history unchanged fails. -/
theorem derived_metrics_mutates_counterexample :
    calculate_derived_metrics_post [c4Record] ≠ [c4Record] := by decide

/-- C9 (amended): `calculate_health_score` and `detect_trends` leave
the caller's history unchanged, but `clean_data` and
`calculate_derived_metrics` update the caller's DataFrame in place —
after those calls the caller's frame is the returned frame, with
default-filled cells and, for every record of a non-empty history, the
derived `pulse_pressure` column (systolic minus diastolic) added. -/
theorem engine_frame_effects (h : Frame) :
    calculate_health_score_post h = h ∧ detect_trends_post h = h ∧
    clean_data_post h = clean_data h ∧
    calculate_derived_metrics_post h = calculate_derived_metrics h ∧
    (h ≠ [] → (calculate_derived_metrics_post h).map (fun r => r.pulse_pressure) =
      h.map (fun r => omap2 (fun a b => a - b) r.systolic_bp r.diastolic_bp)) := by
  refine ⟨rfl, rfl, rfl, rfl, fun hne => ?_⟩
  unfold calculate_derived_metrics_post calculate_derived_metrics
  rw [if_neg hne, List.map_map]
  rfl

/-- C9 witness: the amended mutation fact at the one-record history. -/
theorem engine_frame_effects_witness :
    (calculate_derived_metrics_post [c4Record]).map (fun r => r.pulse_pressure) =
      [c4Record].map (fun r => omap2 (fun a b => a - b) r.systolic_bp r.diastolic_bp) :=
  (engine_frame_effects [c4Record]).2.2.2.2 (by simp)

/-- With the example risk scores, the high-risk condition list is
exactly `["pre_diabetes"]` (only 0.8 exceeds 0.7). -/
lemma c7_high_eval :
    ((c7Scores.filter fun p => decide (0.7 < p.2)).map fun p => p.1) =
      ["pre_diabetes"] := by
  norm_num [c7Scores]

/-- With the example risk scores, the medium-risk condition list is
empty (no score lies in (0.4, 0.7]). -/
lemma c7_med_eval :
    ((c7Scores.filter fun p => decide (0.4 < p.2) && decide (p.2 ≤ 0.7)).map
      fun p => p.1) = ([] : List String) := by
  norm_num [c7Scores]

/-- The shape of `get_interventions` at the example risk scores. -/
lemma c7_result (h : Frame) (latest : Record) (hL : h.getLast? = some latest) :
    get_interventions h c7Scores = intervention_library.map
      (fun ci => (ci.1, ci.2.filterMap (personalize ["pre_diabetes"] [])
        ++ specificRecs ci.1 latest)) := by
  unfold get_interventions
  rw [hL]
  simp only [c7_high_eval, c7_med_eval]

/-- C7: For every non-empty history, `get_interventions` with risk
scores {pre_diabetes: 0.8, hypertension: 0.2, metabolic_syndrome: 0.1}
includes every catalog entry targeting `pre_diabetes` as a clone whose
priority is escalated to "Critical" and whose personalized note
mentions `pre_diabetes`; and a catalog entry none of whose target
conditions scores above 0.4 is included only if its base priority is
High or Critical. -/
theorem get_interventions_escalation (h : Frame) (latest : Record)
    (hL : h.getLast? = some latest) :
    (∀ cat items, (cat, items) ∈ intervention_library →
      ∀ iv ∈ items, "pre_diabetes" ∈ iv.target_conditions →
        ∃ out, (cat, out) ∈ get_interventions h c7Scores ∧
          { iv with
            priority := "Critical"
            personalized_note :=
              some "High priority due to elevated risk in pre_diabetes" } ∈ out ∧
          ∃ s t, "High priority due to elevated risk in pre_diabetes" =
            s ++ "pre_diabetes" ++ t) ∧
    (∀ cat items, (cat, items) ∈ intervention_library →
      ∀ iv ∈ items,
        (∀ c ∈ iv.target_conditions, (c7Scores.lookup c).getD 0 ≤ 0.4) →
        (∃ out e, (cat, out) ∈ get_interventions h c7Scores ∧ e ∈ out ∧
          e.title = iv.title) →
        (iv.priority = "High" ∨ iv.priority = "Critical")) := by
  constructor
  · intro cat items hmem iv hiv hpre
    have hany : (iv.target_conditions.any
        fun c => (["pre_diabetes"] : List String).contains c) = true := by
      rw [List.any_eq_true]
      exact ⟨"pre_diabetes", hpre, by decide⟩
    have hpers : personalize ["pre_diabetes"] [] iv =
        some { iv with
          priority := "Critical"
          personalized_note :=
            some "High priority due to elevated risk in pre_diabetes" } := by
      unfold personalize
      rw [if_pos hany]
      rfl
    refine ⟨items.filterMap (personalize ["pre_diabetes"] [])
        ++ specificRecs cat latest, ?_, ?_,
      "High priority due to elevated risk in ", "", rfl⟩
    · rw [c7_result h latest hL]
      exact List.mem_map_of_mem _ hmem
    · exact List.mem_append_left _ (List.mem_filterMap.2 ⟨iv, hiv, hpers⟩)
  · intro cat items hmem iv hiv hscore _hinc
    have hpdq : ((c7Scores.lookup "pre_diabetes").getD 0 : ℚ) = 0.8 := rfl
    simp only [intervention_library, List.mem_cons, List.not_mem_nil,
      or_false, Prod.mk.injEq] at hmem
    rcases hmem with ⟨rfl, rfl⟩ | ⟨rfl, rfl⟩ | ⟨rfl, rfl⟩ | ⟨rfl, rfl⟩ <;>
      (simp only [List.mem_cons, List.not_mem_nil, or_false] at hiv
       rcases hiv with rfl | rfl | rfl) <;>
      first
        | (left; rfl)
        | (right; rfl)
        | exact absurd (hscore "pre_diabetes" (List.mem_cons_self _ _))
            (by rw [hpdq]; norm_num)

/-- C7 witness: the Mediterranean Diet entry (which targets
`pre_diabetes`) appears escalated to Critical in the dietary category
for a concrete one-record history. -/
theorem get_interventions_escalation_witness :
    ∃ out, ("dietary_interventions", out) ∈ get_interventions [c4Record] c7Scores ∧
      { title := "Mediterranean Diet Adoption", priority := "Critical",
        evidence_level := "Strong",
        target_conditions := ["pre_diabetes", "hypertension", "metabolic_syndrome"],
        duration := "3-6 months",
        personalized_note :=
          some "High priority due to elevated risk in pre_diabetes" } ∈ out ∧
      ∃ s t, "High priority due to elevated risk in pre_diabetes" =
        s ++ "pre_diabetes" ++ t :=
  (get_interventions_escalation [c4Record] c4Record rfl).1
    "dietary_interventions"
    [{ title := "Mediterranean Diet Adoption", priority := "High",
       evidence_level := "Strong",
       target_conditions := ["pre_diabetes", "hypertension", "metabolic_syndrome"],
       duration := "3-6 months" },
     { title := "DASH Diet Implementation", priority := "High",
       evidence_level := "Strong", target_conditions := ["hypertension"],
       duration := "2-4 weeks to see initial results" },
     { title := "Carbohydrate Counting", priority := "Medium",
       evidence_level := "Moderate", target_conditions := ["pre_diabetes"],
       duration := "4-8 weeks" }]
    (by decide)
    { title := "Mediterranean Diet Adoption", priority := "High",
      evidence_level := "Strong",
      target_conditions := ["pre_diabetes", "hypertension", "metabolic_syndrome"],
      duration := "3-6 months" }
    (by decide) (by decide)

/-- C8 witness: a record passing all six checks validates with an empty
error list, by the round-trip direction of the specification theorem. -/
theorem validate_health_data_spec_witness :
    validate_health_data
      [("age", 40), ("bmi", 22), ("systolic_bp", 120), ("diastolic_bp", 78),
       ("glucose_fasting", 90), ("total_cholesterol", 180)] = [] :=
  (validate_health_data_spec
      [("age", 40), ("bmi", 22), ("systolic_bp", 120), ("diastolic_bp", 78),
       ("glucose_fasting", 90), ("total_cholesterol", 180)]).1.2
    ⟨⟨40, rfl, by norm_num, by norm_num⟩,
     ⟨22, rfl, by norm_num, by norm_num⟩,
     ⟨120, rfl, by norm_num, by norm_num⟩,
     ⟨78, rfl, by norm_num, by norm_num⟩,
     ⟨90, rfl, by norm_num, by norm_num⟩,
     ⟨180, rfl, by norm_num, by norm_num⟩⟩
